import Mathlib

/-!
Verification development for the AI test-generator pipeline.

The TypeScript sources are embedded shallowly: JavaScript strings become
`String` values manipulated through structurally recursive helpers over
`List Char` (so every definition evaluates by kernel reduction), JS objects
become structures, thrown exceptions become `Except`, and the LLM boundary
becomes an explicit outcome parameter.  Each embedded definition mirrors one
function of the sources; the theorems at the end of the file settle the
specification claims against these definitions.
-/

/-- JS-style helper: is `pat` a prefix of `l`? (structural, kernel-reducible). -/
def isPrefixL : List Char → List Char → Bool
  | [], _ => true
  | _ :: _, [] => false
  | a :: as, b :: bs => a == b && isPrefixL as bs

/-- JS-style helper: does `pat` occur inside `l`? -/
def isInfixL (pat : List Char) : List Char → Bool
  | [] => isPrefixL pat []
  | c :: rest => isPrefixL pat (c :: rest) || isInfixL pat rest

/-- Model of JavaScript `s.includes(needle)`. -/
def jsIncludes (s needle : String) : Bool :=
  isInfixL needle.data s.data

/-- Split a character list at every occurrence of the single character `sep`
(the behaviour of JS `s.split(sep)` for a one-character separator). -/
def splitCharL (sep : Char) : List Char → List (List Char)
  | [] => [[]]
  | c :: rest =>
    if c == sep then [] :: splitCharL sep rest
    else match splitCharL sep rest with
      | [] => [[c]]
      | t :: ts => (c :: t) :: ts

/-- Model of JS `content.split(String.fromCharCode 10)`: the lines of a file. -/
def jsLines (s : String) : List String :=
  (splitCharL '\n' s.data).map String.mk

/-- Model of JS `s.toLowerCase()` (ASCII letters, as `Char.toLower`). -/
def lowerL (l : List Char) : List Char := l.map Char.toLower

/-- Model of JS `s.toLowerCase()` on `String`. -/
def jsToLower (s : String) : String := String.mk (lowerL s.data)

/-- Worker for `jsSplit`: leftmost non-overlapping split on a multi-character
separator.  `skip` counts separator characters still to be consumed after a
match.  Structural on the character list. -/
def jsSplitGo (pat : List Char) : List Char → Nat → List Char → List (List Char)
  | [], _, acc => [acc.reverse]
  | _ :: rest, Nat.succ k, acc => jsSplitGo pat rest k acc
  | c :: rest, 0, acc =>
    if !pat.isEmpty && isPrefixL pat (c :: rest) then
      acc.reverse :: jsSplitGo pat rest (pat.length - 1) []
    else jsSplitGo pat rest 0 (c :: acc)

/-- Model of JS `s.split(pat)` for a non-empty string separator. -/
def jsSplit (s pat : String) : List String :=
  (jsSplitGo pat.data s.data 0 []).map String.mk

/-- Model of JS `s.indexOf(pat)` (character index of first occurrence, -1 if none). -/
def jsIndexOfAux (pat : List Char) : List Char → Int → Int
  | [], k => if pat.isEmpty then k else -1
  | c :: rest, k => if isPrefixL pat (c :: rest) then k else jsIndexOfAux pat rest (k + 1)

/-- Model of JS `s.indexOf(pat)`. -/
def jsIndexOf (s pat : String) : Int := jsIndexOfAux pat.data s.data 0

/-- Number of leftmost non-overlapping occurrences of `pat`: the value of JS
`s.split(pat).length - 1` for non-empty `pat`. -/
def jsOccurrences (s pat : String) : Nat := (jsSplit s pat).length - 1

/-- Drop whitespace from both ends of a character list (JS `s.trim()`). -/
def trimL (l : List Char) : List Char :=
  ((l.dropWhile Char.isWhitespace).reverse.dropWhile Char.isWhitespace).reverse

/-- Model of JS `s.trim()`. -/
def jsTrim (s : String) : String := String.mk (trimL s.data)

/-- Replace every maximal run of characters satisfying `p` by the single
character `rep` (the shape of JS `s.replace(run-regex, rep)`); `inRun`
records whether the previous character belonged to a run. -/
def collapseRunsAux (p : Char → Bool) (rep : Char) : List Char → Bool → List Char
  | [], _ => []
  | c :: rest, inRun =>
    if p c then
      if inRun then collapseRunsAux p rep rest true
      else rep :: collapseRunsAux p rep rest true
    else c :: collapseRunsAux p rep rest false

/-- Replace every maximal run of `p`-characters by `rep`. -/
def collapseRuns (p : Char → Bool) (rep : Char) (l : List Char) : List Char :=
  collapseRunsAux p rep l false

/-- Remove every occurrence of `pat` together with the whitespace run that
follows it: JS `s.replace(pattern-then-whitespace regex, empty)`.  `skip`
counts pattern characters still being consumed, `ws` marks the
whitespace-absorbing state after a match. -/
def removePatWsAux (pat : List Char) : List Char → Nat → Bool → List Char
  | [], _, _ => []
  | _ :: rest, Nat.succ k, _ => removePatWsAux pat rest k true
  | c :: rest, 0, ws =>
    if ws && c.isWhitespace then removePatWsAux pat rest 0 true
    else if !pat.isEmpty && isPrefixL pat (c :: rest) then
      removePatWsAux pat rest (pat.length - 1) true
    else c :: removePatWsAux pat rest 0 false

/-- Remove every occurrence of `pat` plus trailing whitespace run. -/
def removePatWs (pat : List Char) (l : List Char) : List Char :=
  removePatWsAux pat l 0 false

/-- Split on runs of whitespace, the behaviour of JS `s.split(whitespace-run
regex)`: a leading separator contributes a leading empty field, a trailing
separator a trailing one. -/
def splitWsAux : Bool → List Char → List Char → List String
  | _, cur, [] => [String.mk cur.reverse]
  | skipping, cur, c :: rest =>
    if c.isWhitespace then
      if skipping then splitWsAux true [] rest
      else String.mk cur.reverse :: splitWsAux true [] rest
    else splitWsAux false (c :: cur) rest

/-- Model of JS `s.split(whitespace-run regex)`. -/
def jsSplitWs (s : String) : List String := splitWsAux false [] s.data

namespace AnalysisAgentG

/-- Issue severities used across the analyzer's issue records. -/
inductive Severity where
  | error
  | warning
  | info
  | success
deriving DecidableEq

/-- Sub-taxonomy tags of Playwright-API issues. -/
inductive APIIssueType where
  | deprecated_api
  | missing_await
  | inefficient_selector
  | missing_error_handling
deriving DecidableEq

/-- Sub-taxonomy tags of selector-quality issues. -/
inductive SelectorIssueType where
  | brittle_selector
  | class_based_selector
  | case_sensitive_text
  | good_selector
deriving DecidableEq

/-- Sub-taxonomy tags of performance issues. -/
inductive PerformanceIssueType where
  | excessive_wait
  | networkidle_usage
  | multiple_navigations
deriving DecidableEq

/-- Sub-taxonomy tags of maintainability issues. -/
inductive MaintainabilityIssueType where
  | hardcoded_values
  | hardcoded_assertions
  | missing_describe_block
deriving DecidableEq

/-- Sub-taxonomy tags of best-practice issues. -/
inductive BestPracticeIssueType where
  | missing_imports
  | test_only_usage
  | no_assertions
deriving DecidableEq

/-- A TypeScript-diagnostic record (interface SyntaxError of the analyzer). -/
structure SyntaxError where
  line : Int
  character : Int
  message : String
  severity : Severity
  code : Int
deriving DecidableEq

/-- Interface PlaywrightAPIIssue of the analyzer. -/
structure PlaywrightAPIIssue where
  line : Int
  type : APIIssueType
  message : String
  severity : Severity
  suggestion : String
deriving DecidableEq

/-- Interface SelectorQualityIssue of the analyzer. -/
structure SelectorQualityIssue where
  line : Int
  type : SelectorIssueType
  message : String
  severity : Severity
  robustnessScore : Int
  suggestion : String
deriving DecidableEq

/-- Interface PerformanceIssue of the analyzer (`impact` is one of high,
medium, low, kept as a string). -/
structure PerformanceIssue where
  line : Int
  type : PerformanceIssueType
  message : String
  severity : Severity
  impact : String
  suggestion : String
deriving DecidableEq

/-- Interface MaintainabilityIssue of the analyzer. -/
structure MaintainabilityIssue where
  line : Int
  type : MaintainabilityIssueType
  message : String
  severity : Severity
  suggestion : String
deriving DecidableEq

/-- Interface BestPracticeIssue of the analyzer. -/
structure BestPracticeIssue where
  line : Int
  type : BestPracticeIssueType
  message : String
  severity : Severity
  suggestion : String
deriving DecidableEq

/-- Interface TestAnalysisResult: the per-file aggregate of Stage G. -/
structure TestAnalysisResult where
  filename : String
  syntaxErrors : List SyntaxError
  warningsAndBestPractices : List BestPracticeIssue
  playwrightApiIssues : List PlaywrightAPIIssue
  selectorQualityIssues : List SelectorQualityIssue
  performanceIssues : List PerformanceIssue
  maintainabilityIssues : List MaintainabilityIssue
  overallScore : Int
  recommendedFixes : List String
deriving DecidableEq

/-- AnalysisAgentG.analyzePlaywrightAPI: the per-line Playwright-API checks
(deprecated call, missing await, nth-based selector, missing try/catch). -/
def analyzePlaywrightAPI (content : String) : List PlaywrightAPIIssue :=
  let lines := jsLines content
  lines.enum.flatMap (fun p =>
    let lineNum : Int := (p.1 : Int) + 1
    let line := p.2
    (if jsIncludes line "page.waitForSelector(" then
      [{ line := lineNum, type := .deprecated_api,
         message := "waitForSelector() is deprecated, use locator.waitFor() instead",
         severity := .warning,
         suggestion := "Replace with: await page.locator(selector).waitFor()" }]
     else []) ++
    (if jsIncludes line "page." && !jsIncludes line "await" && !jsIncludes line "return" then
      [{ line := lineNum, type := .missing_await,
         message := "Playwright method call missing await keyword",
         severity := .error,
         suggestion := "Add await before Playwright method calls" }]
     else []) ++
    (if jsIncludes line "page.locator(" && jsIncludes line "nth(" then
      [{ line := lineNum, type := .inefficient_selector,
         message := "Using nth() selector which can be brittle",
         severity := .warning,
         suggestion := "Consider using more specific selectors like getByRole() or getByTestId()" }]
     else []) ++
    (if jsIncludes line ".click()" && !jsIncludes content "try" && !jsIncludes content "catch" then
      [{ line := lineNum, type := .missing_error_handling,
         message := "Interactive actions should have error handling",
         severity := .info,
         suggestion := "Consider wrapping in try-catch or using soft assertions" }]
     else []))

/-- AnalysisAgentG.analyzeSelectorQuality: the per-line selector checks. -/
def analyzeSelectorQuality (content : String) : List SelectorQualityIssue :=
  let lines := jsLines content
  lines.enum.flatMap (fun p =>
    let lineNum : Int := (p.1 : Int) + 1
    let line := p.2
    (if jsIncludes line "css=" || jsIncludes line "xpath=" then
      [{ line := lineNum, type := .brittle_selector,
         message := "CSS/XPath selectors are brittle and hard to maintain",
         severity := .warning, robustnessScore := 3,
         suggestion := "Use semantic selectors like getByRole(), getByLabel(), or getByTestId()" }]
     else []) ++
    (if jsIncludes line ".locator(" && jsIncludes line "." then
      [{ line := lineNum, type := .class_based_selector,
         message := "Class-based selectors can break with CSS changes",
         severity := .info, robustnessScore := 5,
         suggestion := "Consider using data-testid or semantic selectors" }]
     else []) ++
    (if jsIncludes line "text=" && !jsIncludes line "/i" then
      [{ line := lineNum, type := .case_sensitive_text,
         message := "Text selector is case-sensitive",
         severity := .info, robustnessScore := 6,
         suggestion := "Use case-insensitive regex: /text/i" }]
     else []) ++
    (if jsIncludes line "getByRole(" || jsIncludes line "getByTestId(" || jsIncludes line "getByLabel(" then
      [{ line := lineNum, type := .good_selector,
         message := "Good use of semantic selector",
         severity := .success, robustnessScore := 9,
         suggestion := "Keep using semantic selectors for better maintainability" }]
     else []))

/-- The issue list that one line of the file contributes inside
AnalysisAgentG.analyzePerformanceIssues; `navigateCount` is the whole-file
count of navigation calls, computed once outside the per-line loop. -/
def performanceLineIssues (navigateCount : Nat) (lineNum : Int) (line : String) :
    List PerformanceIssue :=
  (if jsIncludes line "waitForTimeout" && jsIncludes line "5000" then
    [{ line := lineNum, type := .excessive_wait,
       message := "Long timeout may slow down test execution",
       severity := .warning, impact := "medium",
       suggestion := "Use specific waitFor conditions instead of fixed timeouts" }]
   else []) ++
  (if jsIncludes line "networkidle" then
    [{ line := lineNum, type := .networkidle_usage,
       message := "networkidle can cause unnecessary delays",
       severity := .info, impact := "low",
       suggestion := "Consider using domcontentloaded or specific element waits" }]
   else []) ++
  (if navigateCount > 1 then
    [{ line := lineNum, type := .multiple_navigations,
       message := "Multiple page navigations detected",
       severity := .info, impact := "medium",
       suggestion := "Consider combining related actions in single page context" }]
   else [])

/-- AnalysisAgentG.analyzePerformanceIssues: per-line checks for long waits
and networkidle, plus the whole-file navigation count re-checked on every
line (`content.split` on the navigation-call text, length minus one). -/
def analyzePerformanceIssues (content : String) : List PerformanceIssue :=
  let lines := jsLines content
  let navigateCount := (jsSplit content "goto(").length - 1
  lines.enum.flatMap (fun p => performanceLineIssues navigateCount ((p.1 : Int) + 1) p.2)

/-- AnalysisAgentG.analyzeMaintainabilityIssues: hardcoded data and test
structure checks. -/
def analyzeMaintainabilityIssues (content : String) : List MaintainabilityIssue :=
  let lines := jsLines content
  let perLine := lines.enum.flatMap (fun p =>
    let lineNum : Int := (p.1 : Int) + 1
    let line := p.2
    (if jsIncludes line "fill(" && (jsIncludes line "\"test" || jsIncludes line "'test") then
      [{ line := lineNum, type := .hardcoded_values,
         message := "Hardcoded test data detected",
         severity := .warning,
         suggestion := "Use test data from configuration or fixtures" }]
     else []) ++
    (if jsIncludes line "expect(" && jsIncludes line "toBe(" && jsIncludes line "\"" then
      [{ line := lineNum, type := .hardcoded_assertions,
         message := "Hardcoded assertion values",
         severity := .info,
         suggestion := "Consider using dynamic assertions or constants" }]
     else []))
  let hasDescribe := jsIncludes content "test.describe("
  perLine ++
    (if !hasDescribe then
      [{ line := 1, type := .missing_describe_block,
         message := "Missing test.describe() block for better organization",
         severity := .info,
         suggestion := "Wrap related tests in describe blocks" }]
     else [])

/-- AnalysisAgentG.analyzeBestPractices: canonical import, exclusive test
marker, and assertion count. -/
def analyzeBestPractices (content : String) : List BestPracticeIssue :=
  (if !jsIncludes content "import \x7b test, expect \x7d from '@playwright/test'" then
    [{ line := 1, type := .missing_imports,
       message := "Missing proper Playwright imports",
       severity := .error,
       suggestion := "Add: import \x7b test, expect \x7d from '@playwright/test'" }]
   else []) ++
  (if jsIncludes content "test.only(" then
    [{ line := jsIndexOf content "test.only(", type := .test_only_usage,
       message := "test.only() found - should not be committed",
       severity := .warning,
       suggestion := "Replace test.only() with test()" }]
   else []) ++
  (if jsOccurrences content "expect(" == 0 then
    [{ line := 1, type := .no_assertions,
       message := "No assertions found in test",
       severity := .error,
       suggestion := "Add expect() assertions to verify test outcomes" }]
   else [])

/-- AnalysisAgentG.calculateQualityScore: start at 100, subtract per issue,
add per good selector, clamp to the 0..100 range. -/
def calculateQualityScore (analysis : TestAnalysisResult) : Int :=
  let score : Int := 100
  let score := score - (analysis.syntaxErrors.length : Int) * 15
  let score := score -
    ((analysis.playwrightApiIssues.filter (fun i => i.severity == Severity.error)).length : Int) * 10
  let score := score -
    ((analysis.playwrightApiIssues.filter (fun i => i.severity == Severity.warning)).length : Int) * 5
  let score := score -
    ((analysis.selectorQualityIssues.filter (fun i => i.severity == Severity.warning)).length : Int) * 3
  let score := score - (analysis.performanceIssues.length : Int) * 2
  let score := score - (analysis.maintainabilityIssues.length : Int) * 2
  let score := score +
    ((analysis.selectorQualityIssues.filter (fun i => i.type == SelectorIssueType.good_selector)).length : Int) * 2
  max 0 (min 100 score)

/-- AnalysisAgentG.analyzeIndividualTest: assembles the per-file aggregate
from the detector passes and scores it.  The TypeScript-compiler syntax scan
and the LLM-produced fix texts depend on external systems (the tsconfig of
the host project and the model), so they enter as the parameters
`syntaxErrors` and `recommendedFixes`; every other field comes from the
embedded detectors. -/
def analyzeIndividualTest (filename content : String)
    (syntaxErrors : List SyntaxError) (recommendedFixes : List String) :
    TestAnalysisResult :=
  let base : TestAnalysisResult :=
    { filename := filename
      syntaxErrors := syntaxErrors
      warningsAndBestPractices := analyzeBestPractices content
      playwrightApiIssues := analyzePlaywrightAPI content
      selectorQualityIssues := analyzeSelectorQuality content
      performanceIssues := analyzePerformanceIssues content
      maintainabilityIssues := analyzeMaintainabilityIssues content
      overallScore := 0
      recommendedFixes := recommendedFixes }
  { base with overallScore := calculateQualityScore base }

end AnalysisAgentG

/-- Interface UserStory (src/types): the pipeline input; only the
description participates in the embedded logic. -/
structure UserStory where
  description : String
deriving DecidableEq

/-- Interface TestScenario (src/types): the Stage A output record.  The
`type` and `device` unions are kept as strings, matching the JavaScript
runtime values. -/
structure TestScenario where
  title : String
  type : String
  description : String
  steps : List String
  expected_outcome : String
  device : String
deriving DecidableEq

/-- Interface ValidatedScenario (src/types): a TestScenario spread together
with the grounding fields Stage B adds. -/
structure ValidatedScenario extends TestScenario where
  selectors : List (String × String)
  api_endpoints : List String
  validation_notes : List String
deriving DecidableEq

/-- Interface PlaywrightTest (src/types): one generated file. -/
structure PlaywrightTest where
  filename : String
  content : String
deriving DecidableEq

/-- The two JSON catalogs the retriever loads: category to name to
expression, in document order. -/
structure KnowledgeBase where
  selectors : List (String × List (String × String))
  endpoints : List (String × List (String × String))
deriving DecidableEq

namespace RAGRetriever

/-- JS object assignment `obj[k] = v` on a record kept as an ordered
association list: an existing key keeps its position and takes the new
value, a new key is appended. -/
def objSet (m : List (String × String)) (k v : String) : List (String × String) :=
  if m.any (fun p => p.1 == k) then
    m.map (fun p => if p.1 == k then (k, v) else p)
  else m ++ [(k, v)]

/-- The matching condition of RAGRetriever.findRelevantSelectors and
findRelevantEndpoints: bidirectional substring containment between the
lower-cased keyword and the raw entry name / category. -/
def entryMatches (keyword name category : String) : Bool :=
  jsIncludes name (jsToLower keyword) ||
  jsIncludes category (jsToLower keyword) ||
  jsIncludes (jsToLower keyword) name ||
  jsIncludes (jsToLower keyword) category

/-- RAGRetriever.findRelevantSelectors: union of all matching locator
entries over all keywords, keyed `category.name`. -/
def findRelevantSelectors (kb : KnowledgeBase) (keywords : List String) :
    List (String × String) :=
  keywords.foldl (fun relevant keyword =>
    kb.selectors.foldl (fun relevant cat =>
      cat.2.foldl (fun relevant ns =>
        if entryMatches keyword ns.1 cat.1 then
          objSet relevant (cat.1 ++ "." ++ ns.1) ns.2
        else relevant) relevant) relevant) []

/-- RAGRetriever.findRelevantEndpoints: pushes a descriptor string for every
matching route entry of every keyword (duplicates kept). -/
def findRelevantEndpoints (kb : KnowledgeBase) (keywords : List String) : List String :=
  keywords.foldl (fun relevant keyword =>
    kb.endpoints.foldl (fun relevant cat =>
      cat.2.foldl (fun relevant ns =>
        if entryMatches keyword ns.1 cat.1 then
          relevant ++ [cat.1 ++ "." ++ ns.1 ++ ": " ++ ns.2]
        else relevant) relevant) relevant) []

/-- The fixed stop-word list of RAGRetriever.extractKeywords. -/
def commonWords : List String :=
  ["the", "a", "an", "and", "or", "but", "in", "on", "at", "to", "for", "of",
   "with", "by", "user", "should", "can", "will"]

/-- RAGRetriever.extractKeywords: lower-case, replace non-word characters by
spaces, split on whitespace runs, keep tokens longer than 2 characters that
are not stop words. -/
def extractKeywords (text : String) : List String :=
  let replaced := String.mk ((lowerL text.data).map (fun c =>
    if c.isAlphanum || c == '_' || c.isWhitespace then c else ' '))
  (jsSplitWs replaced).filter (fun word =>
    word.length > 2 && !commonWords.contains word)

end RAGRetriever

namespace LangChainClient

/-- One observable step of LangChainClient.generateWithRetry: an attempt to
call the model, or a backoff sleep of the given number of milliseconds. -/
inductive RetryEvent where
  | call (attempt : Nat)
  | sleep (ms : Nat)
deriving DecidableEq

/-- The retry loop of LangChainClient.generateWithRetry over the attempt
numbers still to run.  `model attempt` is the outcome of the underlying
generateResponse call on that attempt; `lastError` threads the most recent
failure message.  A failed attempt sleeps `2 ^ attempt` seconds when further
attempts remain; an exhausted loop raises the typed failure carrying the
last error. -/
def generateWithRetryGo (model : Nat → Except String String) (retries : Nat)
    (lastError : String) : List Nat → List RetryEvent × Except String String
  | [] =>
    ([], .error ("LLM failed after " ++ toString retries ++ " attempts. Last error: " ++ lastError))
  | attempt :: rest =>
    match model attempt with
    | .ok text => ([.call attempt], .ok text)
    | .error e =>
      let tail := generateWithRetryGo model retries e rest
      if attempt < retries then
        (.call attempt :: .sleep (2 ^ attempt * 1000) :: tail.1, tail.2)
      else
        (.call attempt :: tail.1, tail.2)

/-- LangChainClient.generateWithRetry with the retry ceiling already
resolved: attempts run from 1 to `retries`. -/
def generateWithRetry (model : Nat → Except String String) (retries : Nat) :
    List RetryEvent × Except String String :=
  generateWithRetryGo model retries "" (List.range' 1 retries)

end LangChainClient

namespace LangChainAgentA

/-- A JavaScript value sitting in the `steps` field of a parsed scenario
object: an array of strings, or a single non-array value. -/
inductive JsStepsVal where
  | arr (l : List String)
  | str (s : String)
deriving DecidableEq

/-- One element of the JSON array parsed from the model response, before
validation.  `none` is an absent field; `some` an empty string is present
but falsy, as in JavaScript. -/
structure RawScenario where
  title : Option String
  type : Option String
  description : Option String
  steps : Option JsStepsVal
  expected_outcome : Option String
  device : Option String
deriving DecidableEq

/-- JS truthiness of a possibly-absent string field. -/
def strTruthy : Option String → Bool
  | none => false
  | some s => !(s == "")

/-- JS truthiness of the `steps` field (an array is always truthy). -/
def stepsTruthy : Option JsStepsVal → Bool
  | none => false
  | some (.arr _) => true
  | some (.str s) => !(s == "")

/-- Dynamic field access `scenario[field]` restricted to the required-field
names, as JS truthiness. -/
def fieldTruthy (scenario : RawScenario) : String → Bool
  | "title" => strTruthy scenario.title
  | "type" => strTruthy scenario.type
  | "description" => strTruthy scenario.description
  | "steps" => stepsTruthy scenario.steps
  | "expected_outcome" => strTruthy scenario.expected_outcome
  | _ => false

/-- The required-field filter of LangChainAgentA.validateScenario. -/
def missingFields (scenario : RawScenario) : List String :=
  (["title", "type", "description", "steps", "expected_outcome"]).filter
    (fun field => !fieldTruthy scenario field)

/-- LangChainAgentA.validateScenario: reject on missing required fields
(naming them), coerce an invalid kind to positive, wrap a non-array steps
value into a singleton, default the device from the (coerced) kind. -/
def validateScenario (index : Nat) (scenario : RawScenario) : Except String TestScenario :=
  let missing := missingFields scenario
  if missing.length > 0 then
    .error ("Scenario " ++ toString index ++ " missing fields: " ++
      String.intercalate ", " missing)
  else
    let ty := scenario.type.getD ""
    let ty := if (["positive", "negative", "edge", "cross-device"]).contains ty then ty
      else "positive"
    let steps := match scenario.steps with
      | some (.arr l) => l
      | some (.str s) => ([s]).filter (fun x => !(x == ""))
      | none => []
    .ok
      { title := scenario.title.getD ""
        type := ty
        description := scenario.description.getD ""
        steps := steps
        expected_outcome := scenario.expected_outcome.getD ""
        device :=
          if strTruthy scenario.device then scenario.device.getD ""
          else if ty == "cross-device" then "mobile" else "desktop" }

/-- The `scenarios.map(validateScenario)` traversal: JavaScript `map` with a
throwing callback stops at the first failure. -/
def validateAllGo (index : Nat) : List RawScenario → Except String (List TestScenario)
  | [] => .ok []
  | r :: rs =>
    match validateScenario index r with
    | .error e => .error e
    | .ok t =>
      match validateAllGo (index + 1) rs with
      | .error e => .error e
      | .ok ts => .ok (t :: ts)

/-- LangChainAgentA.parseScenarios after the JSON stage: `parsed` stands for
the code-fence stripping, JSON.parse and is-array check of the raw model
text (an error there is rethrown wrapped, exactly as a validation error is). -/
def parseScenarios (parsed : Except String (List RawScenario)) :
    Except String (List TestScenario) :=
  match parsed with
  | .error e => .error ("Failed to parse scenarios: " ++ e)
  | .ok arr =>
    match validateAllGo 0 arr with
    | .error e => .error ("Failed to parse scenarios: " ++ e)
    | .ok ts => .ok ts

/-- Outcome of the Stage A model invocation: the call itself failed, or it
returned text whose clean/parse/array stage produced `parsed`. -/
inductive ModelResult where
  | invokeFailure
  | response (parsed : Except String (List RawScenario))

/-- LangChainAgentA.extractTitle: the action words of the description, or
its first three words. -/
def extractTitle (description : String) : String :=
  let words := jsSplit description " "
  let actionWords := words.filter (fun word =>
    (["sign", "login", "request", "submit", "create", "update", "delete", "view"]).any
      (fun action => jsIncludes (jsToLower word) action))
  if actionWords.length > 0 then String.intercalate " " actionWords
  else String.intercalate " " (words.take 3)

/-- LangChainAgentA.generatePositiveSteps: fixed step templates keyed by
substrings of the story description. -/
def generatePositiveSteps (description : String) : List String :=
  let steps := ["Navigate to the application"]
  steps ++
    (if jsIncludes (jsToLower description) "sign up" ||
        jsIncludes (jsToLower description) "register" then
      ["Click on sign up/register link", "Fill in valid user information",
       "Submit the registration form", "Verify email confirmation if required"]
     else if jsIncludes (jsToLower description) "login" ||
        jsIncludes (jsToLower description) "sign in" then
      ["Enter valid email/username", "Enter correct password", "Click login button",
       "Verify successful authentication"]
     else if jsIncludes (jsToLower description) "credit report" then
      ["Log in to user account", "Navigate to credit report section",
       "Click request credit report button", "Complete any required verification",
       "Wait for report generation", "Download or view the report"]
     else
      ["Perform the primary action described", "Complete any required form fields",
       "Submit the request", "Verify successful completion"])

/-- LangChainAgentA.generateNegativeSteps (fixed list). -/
def generateNegativeSteps (_description : String) : List String :=
  ["Navigate to the application",
   "Attempt to perform action with invalid/missing data",
   "Submit the form/request",
   "Observe error handling and validation messages",
   "Verify system prevents invalid operations"]

/-- LangChainAgentA.generateEdgeCaseSteps (fixed list). -/
def generateEdgeCaseSteps (_description : String) : List String :=
  ["Navigate to the application",
   "Begin the intended action",
   "Simulate network interruption or slow connection",
   "Attempt to complete the action",
   "Verify system handles the error gracefully",
   "Test recovery mechanisms"]

/-- LangChainAgentA.generateFallbackScenarios: the deterministic 4-scenario
synthesis, one record per kind. -/
def generateFallbackScenarios (userStory : UserStory) : List TestScenario :=
  let baseTitle := extractTitle userStory.description
  [{ title := baseTitle ++ " - Happy Path"
     type := "positive"
     description := "User successfully completes: " ++ userStory.description
     steps := generatePositiveSteps userStory.description
     expected_outcome := "User successfully completes the action with expected results"
     device := "desktop" },
   { title := baseTitle ++ " - Invalid Input"
     type := "negative"
     description := "User attempts " ++ userStory.description ++ " with invalid data"
     steps := generateNegativeSteps userStory.description
     expected_outcome := "System displays appropriate error messages and prevents invalid actions"
     device := "desktop" },
   { title := baseTitle ++ " - Network Error"
     type := "edge"
     description := "User attempts " ++ userStory.description ++ " during network issues"
     steps := generateEdgeCaseSteps userStory.description
     expected_outcome := "System gracefully handles network errors with proper user feedback"
     device := "desktop" },
   { title := baseTitle ++ " - Mobile Experience"
     type := "cross-device"
     description := "User completes " ++ userStory.description ++ " on mobile device"
     steps := generatePositiveSteps userStory.description
     expected_outcome := "Mobile interface provides equivalent functionality with responsive design"
     device := "mobile" }]

/-- LangChainAgentA.expandUserStory: the primary model path returns the
validated parse result; any invocation or parse failure falls back to the
rule-based synthesis. -/
def expandUserStory (result : ModelResult) (userStory : UserStory) : List TestScenario :=
  match result with
  | .invokeFailure => generateFallbackScenarios userStory
  | .response parsed =>
    match parseScenarios parsed with
    | .ok scenarios => scenarios
    | .error _ => generateFallbackScenarios userStory

end LangChainAgentA

namespace LangChainAgentB

/-- The structure LangChainAgentB.parseValidationResponse returns after its
defaulting (`relevant_selectors`, `relevant_endpoints`, `validation_notes`;
the confidence score it also defaults is accepted but never propagated, so
it is not modelled). -/
structure BValidation where
  relevant_selectors : List (String × String)
  relevant_endpoints : List String
  validation_notes : List String
deriving DecidableEq

/-- Outcome of the Stage B model path for one scenario: the invocation or
the JSON parse threw, or it produced a defaulted validation object. -/
inductive BOutcome where
  | failure
  | parsed (v : BValidation)

/-- LangChainAgentB.generateValidationNotes: deterministic advisory notes
from match emptiness, device and scenario kind. -/
def generateValidationNotes (scenario : TestScenario)
    (selectors : List (String × String)) (endpoints : List String) : List String :=
  (if selectors.length == 0 then
    ["WARNING: No matching selectors found - may need to add custom selectors"]
   else
    ["Found " ++ toString selectors.length ++ " relevant selectors"]) ++
  (if endpoints.length == 0 then
    ["WARNING: No matching API endpoints found - may need API mocking"]
   else
    ["Found " ++ toString endpoints.length ++ " relevant API endpoints"]) ++
  (if scenario.device == "mobile" then
    ["Mobile-specific: Ensure responsive selectors and touch interactions"]
   else []) ++
  (if scenario.type == "negative" then
    ["Negative test: Ensure error selectors and validation messages are available"]
   else if scenario.type == "edge" then
    ["Edge case: Consider network simulation and error handling"]
   else [])

/-- LangChainAgentB.performFallbackValidation: retriever keywords from
title, description and joined steps, then matched locators, routes and
deterministic notes, spread over the input scenario. -/
def performFallbackValidation (kb : KnowledgeBase) (scenario : TestScenario) :
    ValidatedScenario :=
  let keywords := RAGRetriever.extractKeywords
    (scenario.title ++ " " ++ scenario.description ++ " " ++
      String.intercalate " " scenario.steps)
  let relevantSelectors := RAGRetriever.findRelevantSelectors kb keywords
  let relevantEndpoints := RAGRetriever.findRelevantEndpoints kb keywords
  { toTestScenario := scenario
    selectors := relevantSelectors
    api_endpoints := relevantEndpoints
    validation_notes := generateValidationNotes scenario relevantSelectors relevantEndpoints }

/-- LangChainAgentB.validateScenario: the model path spreads the scenario
with the parsed validation fields; any failure falls back to the rule-based
validation.  Both paths leave every scenario field unchanged. -/
def validateScenario (kb : KnowledgeBase) (outcome : BOutcome) (scenario : TestScenario) :
    ValidatedScenario :=
  match outcome with
  | .parsed v =>
    { toTestScenario := scenario
      selectors := v.relevant_selectors
      api_endpoints := v.relevant_endpoints
      validation_notes := v.validation_notes }
  | .failure => performFallbackValidation kb scenario

end LangChainAgentB

namespace LangChainAgentC

/-- LangChainAgentC.generateFilename: lower-case the title, delete all
characters outside lower-case letters, digits, whitespace and hyphen,
collapse whitespace runs then hyphen runs to single hyphens, trim, and
append the device suffix and extension. -/
def generateFilename (scenario : ValidatedScenario) : String :=
  let sanitized := jsTrim (String.mk
    (collapseRuns (fun c => c == '-') '-'
      (collapseRuns Char.isWhitespace '-'
        ((lowerL scenario.title.data).filter (fun c =>
          ('a' ≤ c && c ≤ 'z') || ('0' ≤ c && c ≤ '9') || c.isWhitespace || c == '-')))))
  let device := if scenario.device == "" then "" else "-" ++ scenario.device
  sanitized ++ device ++ ".spec.ts"

/-- The code-fence cleanup of LangChainAgentC.generateLLMTestContent: strip
fenced-block markers (with trailing whitespace) and trim. -/
def cleanLLMResponse (response : String) : String :=
  jsTrim (String.mk
    (removePatWs ("```").data
      (removePatWs ("```ts").data
        (removePatWs ("```typescript").data response.data))))

/-- LangChainAgentC.generateImports (fixed import line). -/
def generateImports : String :=
  "import \x7b test, expect, devices \x7d from '@playwright/test';"

/-- LangChainAgentC.generateTestDescription: describe header with comment
block and device-specific configuration. -/
def generateTestDescription (scenario : ValidatedScenario) : String :=
  let deviceConfig :=
    if scenario.device == "mobile" then ".use(\x7b ...devices['iPhone 13'] \x7d)" else ""
  "test.describe('" ++ scenario.title ++ "', () => \x7b\n" ++
    "  // Scenario Type: " ++ scenario.type ++ "\n" ++
    "  // Description: " ++ scenario.description ++ "\n" ++
    "  // Expected Outcome: " ++ scenario.expected_outcome ++ "\n" ++
    "  " ++ String.intercalate "\n" (scenario.validation_notes.map (fun note => "  // " ++ note)) ++
    "\n\n" ++
    "  test('" ++ scenario.title ++ "'" ++ deviceConfig ++ ", async (\x7b page \x7d) => \x7b"

/-- LangChainAgentC.findBestSelector: first matched locator whose name
occurs in the step text (or shares the login/submit markers), else the
fallback. -/
def findBestSelector (step : String) (selectors : List (String × String))
    (fallback : String) : String :=
  let stepLower := jsToLower step
  match selectors.find? (fun p =>
    jsIncludes stepLower (jsToLower p.1) ||
    (jsIncludes (jsToLower p.1) "login" && jsIncludes stepLower "login") ||
    (jsIncludes (jsToLower p.1) "submit" && jsIncludes stepLower "submit")) with
  | some p => p.2
  | none => fallback

/-- LangChainAgentC.generateStepCode: one action block per step, chosen by
substring match on the step text. -/
def generateStepCode (step : String) (_index : Nat) (scenario : ValidatedScenario) : String :=
  let stepComment := "    // Given/When/Then: " ++ step
  if jsIncludes (jsToLower step) "navigate" then
    stepComment ++ "\n    await page.goto('/'); // TODO: Replace with actual URL"
  else if jsIncludes (jsToLower step) "click" || jsIncludes (jsToLower step) "button" then
    let found := findBestSelector step scenario.selectors "button"
    let selector := if found == "" then "button" else found
    stepComment ++ "\n    await page.click('" ++ selector ++ "');"
  else if jsIncludes (jsToLower step) "fill" || jsIncludes (jsToLower step) "enter" then
    let found := findBestSelector step scenario.selectors "input"
    let selector := if found == "" then "input" else found
    stepComment ++ "\n    await page.fill('" ++ selector ++
      "', 'test-data'); // TODO: Replace with actual test data"
  else if jsIncludes (jsToLower step) "wait" || jsIncludes (jsToLower step) "load" then
    stepComment ++ "\n    await page.waitForLoadState('networkidle');"
  else if jsIncludes (jsToLower step) "verify" || jsIncludes (jsToLower step) "check" then
    stepComment ++ "\n    // TODO: Add specific verification logic\n    await expect(page).toHaveURL(/.*\\/expected-page/);"
  else
    stepComment ++ "\n    // TODO: Implement step logic for: " ++ step

/-- LangChainAgentC.generateOutcomeVerification: templated by scenario kind
and expected-outcome text. -/
def generateOutcomeVerification (scenario : ValidatedScenario) : String :=
  if scenario.type == "negative" then
    "// Verify error handling\n    await expect(page.locator('.error-message, .alert-error, [role=\"alert\"]')).toBeVisible();"
  else if jsIncludes (jsToLower scenario.expected_outcome) "success" then
    "// Verify successful completion\n    await expect(page.locator('.success-message, .alert-success')).toBeVisible();"
  else
    "// TODO: Add specific outcome verification based on: " ++ scenario.expected_outcome ++
      "\n    await expect(page).toHaveURL(/.*\\/success/);"

/-- LangChainAgentC.generateTestBody: comment blocks for available
selectors and endpoints, the step blocks, and the outcome verification. -/
def generateTestBody (scenario : ValidatedScenario) : String :=
  let steps := String.intercalate "\n\n"
    (scenario.steps.enum.map (fun p => generateStepCode p.2 p.1 scenario))
  let selectorComments :=
    if scenario.selectors.length > 0 then
      "\n    // Available selectors:\n" ++ String.intercalate "\n"
        (scenario.selectors.map (fun p => "    // " ++ p.1 ++ ": " ++ p.2))
    else ""
  let apiComments :=
    if scenario.api_endpoints.length > 0 then
      "\n    // Relevant API endpoints:\n" ++ String.intercalate "\n"
        (scenario.api_endpoints.map (fun endpoint => "    // " ++ endpoint))
    else ""
  selectorComments ++ apiComments ++ "\n\n    " ++ steps ++
    "\n\n    // Verify expected outcome\n    " ++ generateOutcomeVerification scenario

/-- LangChainAgentC.generateFallbackTestContent: deterministic template
rendering of one validated scenario. -/
def generateFallbackTestContent (scenario : ValidatedScenario) : String :=
  generateImports ++ "\n\n" ++ generateTestDescription scenario ++ "\n" ++
    generateTestBody scenario ++ "\n\x7d);"

/-- Outcome of the Stage C model invocation for one scenario. -/
inductive COutcome where
  | failure
  | ok (response : String)

/-- LangChainAgentC.generateSingleTest: the filename is derived once, before
the try block, and is therefore shared by the primary and fallback content
paths. -/
def generateSingleTest (outcome : COutcome) (scenario : ValidatedScenario) : PlaywrightTest :=
  let filename := generateFilename scenario
  match outcome with
  | .ok response => { filename := filename, content := cleanLLMResponse response }
  | .failure => { filename := filename, content := generateFallbackTestContent scenario }

end LangChainAgentC

/-- The scoring formula exactly as the specification words it: 100, minus 15
per syntax issue, minus 10 per API issue at error severity, minus 5 per API
issue at warning severity, minus 3 per locator issue at warning severity,
minus 2 per performance issue, minus 2 per maintainability issue, plus 2 per
positive locator signal, clamped to the 0..100 range. -/
def scoreSpec (a : AnalysisAgentG.TestAnalysisResult) : Int :=
  max 0 (min 100 (100
    - 15 * (a.syntaxErrors.length : Int)
    - 10 * ((a.playwrightApiIssues.filter
        (fun i => i.severity == AnalysisAgentG.Severity.error)).length : Int)
    - 5 * ((a.playwrightApiIssues.filter
        (fun i => i.severity == AnalysisAgentG.Severity.warning)).length : Int)
    - 3 * ((a.selectorQualityIssues.filter
        (fun i => i.severity == AnalysisAgentG.Severity.warning)).length : Int)
    - 2 * (a.performanceIssues.length : Int)
    - 2 * (a.maintainabilityIssues.length : Int)
    + 2 * ((a.selectorQualityIssues.filter
        (fun i => i.type == AnalysisAgentG.SelectorIssueType.good_selector)).length : Int)))

/-- A generated file whose only defect is one recognized asynchronous call
missing its await marker (line 3): well-formed import, describe block and
assertion, no other detector trigger. -/
def awaitlessContent : String :=
  "import \x7b test, expect \x7d from '@playwright/test';\ntest.describe('t', () => \x7b\n  page.goto('/x');\n  expect(page).toHaveURL('/x');\n\x7d);"

/-- The single API-usage issue the analyzer emits on `awaitlessContent`. -/
def awaitlessIssue : AnalysisAgentG.PlaywrightAPIIssue :=
  { line := 3, type := .missing_await,
    message := "Playwright method call missing await keyword",
    severity := .error,
    suggestion := "Add await before Playwright method calls" }

/-- A file with two navigation calls on two of its three lines. -/
def twoNavContent : String := "x\ngoto(a\ngoto(b"

/-- A knowledge base holding exactly the entry (category forms, name
sign_in) from the retrieval-matching example. -/
def kbSignIn : KnowledgeBase :=
  { selectors := [("forms", [("sign_in", "#sign-in-form")])], endpoints := [] }

/-- A validated scenario with the given title and device and neutral
remaining fields, for exercising the filename derivation. -/
def plainScenario (title device : String) : ValidatedScenario :=
  { title := title, type := "positive", description := "d", steps := [],
    expected_outcome := "o", device := device, selectors := [],
    api_endpoints := [], validation_notes := [] }

/-- `plainScenario` with a different description, same title and device. -/
def plainScenarioAlt (title device : String) : ValidatedScenario :=
  { plainScenario title device with description := "other" }

/-- A parsed model scenario with every required field present and valid. -/
def rawComplete : LangChainAgentA.RawScenario :=
  { title := some "T", type := some "positive", description := some "D",
    steps := some (.arr ["s1"]), expected_outcome := some "O", device := none }

/-- The validated form of `rawComplete`. -/
def scenarioComplete : TestScenario :=
  { title := "T", type := "positive", description := "D", steps := ["s1"],
    expected_outcome := "O", device := "desktop" }

/-- A parsed model scenario with an invalid kind, a non-array steps value
and no device field. -/
def rawCoerced : LangChainAgentA.RawScenario :=
  { title := some "T", type := some "bogus", description := some "D",
    steps := some (.str "only step"), expected_outcome := some "O", device := none }

/-- A fixed story input. -/
def storyEx : UserStory := { description := "User signs in to their account" }

/-- An analysis aggregate with empty issue lists, for instantiating the
scoring monotonicity bounds. -/
def emptyAnalysis : AnalysisAgentG.TestAnalysisResult :=
  { filename := "f.spec.ts", syntaxErrors := [], warningsAndBestPractices := [],
    playwrightApiIssues := [], selectorQualityIssues := [], performanceIssues := [],
    maintainabilityIssues := [], overallScore := 0, recommendedFixes := [] }

/-- A concrete performance issue. -/
def perfIssueEx : AnalysisAgentG.PerformanceIssue :=
  { line := 1, type := .excessive_wait, message := "m", severity := .warning,
    impact := "medium", suggestion := "s" }

/-- A concrete positive locator-quality signal, as the detector creates
them. -/
def goodSelectorEx : AnalysisAgentG.SelectorQualityIssue :=
  { line := 1, type := .good_selector, message := "m", severity := .success,
    robustnessScore := 9, suggestion := "s" }

/-- A concrete locator-quality issue that is not a positive signal. -/
def brittleSelectorEx : AnalysisAgentG.SelectorQualityIssue :=
  { line := 1, type := .brittle_selector, message := "m", severity := .warning,
    robustnessScore := 3, suggestion := "s" }

/-- Clamping to the 0..100 range is monotone. -/
theorem clamp_mono {x y : Int} (h : x ≤ y) :
    max 0 (min 100 x) ≤ max 0 (min 100 y) :=
  max_le_max le_rfl (min_le_min le_rfl h)

/-- The sequential deductions of the analyzer's score equal the closed-form
specification formula. -/
theorem score_eq (a : AnalysisAgentG.TestAnalysisResult) :
    AnalysisAgentG.calculateQualityScore a = scoreSpec a := by
  unfold AnalysisAgentG.calculateQualityScore scoreSpec
  ring_nf

/-- The score is clamped below by 0 and above by 100. -/
theorem score_bounds (a : AnalysisAgentG.TestAnalysisResult) :
    0 ≤ AnalysisAgentG.calculateQualityScore a ∧
      AnalysisAgentG.calculateQualityScore a ≤ 100 := by
  unfold AnalysisAgentG.calculateQualityScore
  exact ⟨le_max_left 0 _, max_le (by norm_num) (min_le_left 100 _)⟩

/-- Adding a syntax issue never increases the score. -/
theorem mono_syntax (a : AnalysisAgentG.TestAnalysisResult) (e : AnalysisAgentG.SyntaxError) :
    AnalysisAgentG.calculateQualityScore { a with syntaxErrors := e :: a.syntaxErrors } ≤
      AnalysisAgentG.calculateQualityScore a := by
  rw [score_eq, score_eq]
  apply clamp_mono
  simp [scoreSpec]
  omega

/-- Adding an API-usage issue never increases the score. -/
theorem mono_api (a : AnalysisAgentG.TestAnalysisResult)
    (e : AnalysisAgentG.PlaywrightAPIIssue) :
    AnalysisAgentG.calculateQualityScore
        { a with playwrightApiIssues := e :: a.playwrightApiIssues } ≤
      AnalysisAgentG.calculateQualityScore a := by
  rw [score_eq, score_eq]
  apply clamp_mono
  obtain ⟨ln, ty, msg, sev, sug⟩ := e
  cases sev <;> simp [scoreSpec, List.filter_cons] <;> omega

/-- Adding a locator-quality issue other than a positive signal never
increases the score. -/
theorem mono_sel (a : AnalysisAgentG.TestAnalysisResult)
    (e : AnalysisAgentG.SelectorQualityIssue)
    (h : e.type ≠ AnalysisAgentG.SelectorIssueType.good_selector) :
    AnalysisAgentG.calculateQualityScore
        { a with selectorQualityIssues := e :: a.selectorQualityIssues } ≤
      AnalysisAgentG.calculateQualityScore a := by
  rw [score_eq, score_eq]
  apply clamp_mono
  obtain ⟨ln, ty, msg, sev, rs, sug⟩ := e
  simp only at h
  cases sev <;> cases ty <;> simp_all [scoreSpec, List.filter_cons] <;> omega

/-- Adding a performance issue never increases the score. -/
theorem mono_perf (a : AnalysisAgentG.TestAnalysisResult)
    (e : AnalysisAgentG.PerformanceIssue) :
    AnalysisAgentG.calculateQualityScore
        { a with performanceIssues := e :: a.performanceIssues } ≤
      AnalysisAgentG.calculateQualityScore a := by
  rw [score_eq, score_eq]
  apply clamp_mono
  simp [scoreSpec]
  omega

/-- Adding a maintainability issue never increases the score. -/
theorem mono_maint (a : AnalysisAgentG.TestAnalysisResult)
    (e : AnalysisAgentG.MaintainabilityIssue) :
    AnalysisAgentG.calculateQualityScore
        { a with maintainabilityIssues := e :: a.maintainabilityIssues } ≤
      AnalysisAgentG.calculateQualityScore a := by
  rw [score_eq, score_eq]
  apply clamp_mono
  simp [scoreSpec]
  omega

/-- Adding a positive locator-quality signal (type good_selector, severity
other than warning, as the detector creates them) never decreases the score. -/
theorem mono_good (a : AnalysisAgentG.TestAnalysisResult)
    (e : AnalysisAgentG.SelectorQualityIssue)
    (ht : e.type = AnalysisAgentG.SelectorIssueType.good_selector)
    (hs : e.severity ≠ AnalysisAgentG.Severity.warning) :
    AnalysisAgentG.calculateQualityScore a ≤
      AnalysisAgentG.calculateQualityScore
        { a with selectorQualityIssues := e :: a.selectorQualityIssues } := by
  rw [score_eq, score_eq]
  apply clamp_mono
  obtain ⟨ln, ty, msg, sev, rs, sug⟩ := e
  simp only at ht hs
  subst ht
  cases sev <;> simp_all [scoreSpec, List.filter_cons] <;> omega

/-- The multiple-navigations filter of one line's performance issues: one
issue when the whole-file navigation count exceeds one, none otherwise. -/
theorem perfLine_filter (nav : Nat) (i : Int) (s : String) :
    (AnalysisAgentG.performanceLineIssues nav i s).filter
        (fun x => x.type == AnalysisAgentG.PerformanceIssueType.multiple_navigations) =
      if nav > 1 then
        [{ line := i, type := .multiple_navigations,
           message := "Multiple page navigations detected",
           severity := .info, impact := "medium",
           suggestion := "Consider combining related actions in single page context" }]
      else [] := by
  unfold AnalysisAgentG.performanceLineIssues
  split_ifs <;> rfl

/-- Counting multiple-navigations issues over any list of numbered lines:
every line contributes exactly one when the navigation count exceeds one. -/
theorem flatMap_multiNav (nav : Nat) (l : List (Nat × String)) :
    ((l.flatMap (fun p => AnalysisAgentG.performanceLineIssues nav ((p.1 : Int) + 1) p.2)).filter
        (fun x => x.type == AnalysisAgentG.PerformanceIssueType.multiple_navigations)).length =
      if nav > 1 then l.length else 0 := by
  induction l with
  | nil => simp
  | cons hd tl ih =>
    simp only [List.flatMap_cons, List.filter_append, List.length_append, ih, perfLine_filter]
    split_ifs <;> simp [Nat.add_comm]

/-- The validated-scenario list of Stage A's map-with-validation has the
length of its input whenever it succeeds. -/
theorem validateAllGo_length (i : Nat) (raws : List LangChainAgentA.RawScenario)
    (ts : List TestScenario) (h : LangChainAgentA.validateAllGo i raws = .ok ts) :
    ts.length = raws.length := by
  induction raws generalizing i ts with
  | nil =>
    simp [LangChainAgentA.validateAllGo] at h
    simp [← h]
  | cons r rs ih =>
    simp only [LangChainAgentA.validateAllGo] at h
    cases hv : LangChainAgentA.validateScenario i r with
    | error e => rw [hv] at h; cases h
    | ok t =>
      rw [hv] at h
      cases hrec : LangChainAgentA.validateAllGo (i + 1) rs with
      | error e => rw [hrec] at h; cases h
      | ok ts' =>
        rw [hrec] at h
        cases h
        simp [ih (i + 1) ts' hrec]

/-- A scenario whose required-field filter is empty has every required field
truthy. -/
theorem missing_nil {r : LangChainAgentA.RawScenario}
    (h : LangChainAgentA.missingFields r = []) :
    LangChainAgentA.strTruthy r.title = true ∧ LangChainAgentA.strTruthy r.type = true ∧
      LangChainAgentA.strTruthy r.description = true ∧
      LangChainAgentA.stepsTruthy r.steps = true ∧
      LangChainAgentA.strTruthy r.expected_outcome = true := by
  simp only [LangChainAgentA.missingFields, LangChainAgentA.fieldTruthy,
    List.filter_cons, List.filter_nil] at h
  split_ifs at h <;> simp_all

/-- C1: the Stage A contract does not hold as stated: when the model
invocation and parse succeed, expandUserStory returns as many scenarios as
the parsed array holds — here a parsed response of five valid scenario
objects yields five scenarios, not four. -/
theorem stageA_five_scenarios_counterexample :
    (LangChainAgentA.expandUserStory
        (.response (.ok (List.replicate 5 rawComplete))) storyEx).length = 5 ∧
      (LangChainAgentA.expandUserStory
        (.response (.ok (List.replicate 5 rawComplete))) storyEx).length ≠ 4 :=
  ⟨by decide, by decide⟩

/-- C1 (amended): the fallback paths of Stage A (model failure or parse
failure) always return exactly 4 scenarios, one per fixed kind in the fixed
order; on a successful model-and-parse run expandUserStory returns exactly
the validated scenarios of the parsed array, one per element, with no
size-4 enforcement. -/
theorem stageA_batch_contract :
    (∀ story : UserStory,
      (LangChainAgentA.expandUserStory .invokeFailure story).length = 4 ∧
        (LangChainAgentA.expandUserStory .invokeFailure story).map (fun s => s.type) =
          ["positive", "negative", "edge", "cross-device"]) ∧
    (∀ (story : UserStory) (e : String),
      LangChainAgentA.expandUserStory (.response (.error e)) story =
        LangChainAgentA.generateFallbackScenarios story) ∧
    (∀ (story : UserStory) (raws : List LangChainAgentA.RawScenario)
        (ts : List TestScenario),
      LangChainAgentA.validateAllGo 0 raws = .ok ts →
        LangChainAgentA.expandUserStory (.response (.ok raws)) story = ts ∧
          ts.length = raws.length) := by
  refine ⟨fun story => ⟨rfl, rfl⟩, fun story e => rfl, fun story raws ts h => ⟨?_, ?_⟩⟩
  · simp [LangChainAgentA.expandUserStory, LangChainAgentA.parseScenarios, h]
  · exact validateAllGo_length 0 raws ts h

/-- C1 witness: a singleton parsed array yields exactly its one validated
scenario. -/
theorem stageA_batch_contract_witness :
    LangChainAgentA.expandUserStory (.response (.ok [rawComplete])) storyEx =
        [scenarioComplete] ∧
      ([scenarioComplete] : List TestScenario).length = [rawComplete].length :=
  stageA_batch_contract.2.2 storyEx [rawComplete] [scenarioComplete] rfl

/-- C2: the overall score is the pure deterministic clamp-to-0..100 of 100
minus 15 per syntax issue, 10 per error-severity API issue, 5 per
warning-severity API issue, 3 per warning-severity locator issue, 2 per
performance issue, 2 per maintainability issue, plus 2 per good_selector
signal. -/
theorem qualityScore_formula (a : AnalysisAgentG.TestAnalysisResult) :
    AnalysisAgentG.calculateQualityScore a = scoreSpec a :=
  score_eq a

/-- C3: for a generated file on which the API-usage analysis finds exactly
one issue, of error severity (the missing-await detection), and the
selector, performance and maintainability detectors find nothing, Stage G's
aggregate (with no syntax diagnostics) carries exactly that issue and scores
100 - 10 = 90. -/
theorem stageG_missing_await_scoring (content fn : String)
    (iss : AnalysisAgentG.PlaywrightAPIIssue) (fixes : List String)
    (hapi : AnalysisAgentG.analyzePlaywrightAPI content = [iss])
    (hty : iss.type = AnalysisAgentG.APIIssueType.missing_await)
    (hsev : iss.severity = AnalysisAgentG.Severity.error)
    (hsel : AnalysisAgentG.analyzeSelectorQuality content = [])
    (hperf : AnalysisAgentG.analyzePerformanceIssues content = [])
    (hmaint : AnalysisAgentG.analyzeMaintainabilityIssues content = []) :
    (AnalysisAgentG.analyzeIndividualTest fn content [] fixes).playwrightApiIssues = [iss] ∧
      (AnalysisAgentG.analyzeIndividualTest fn content [] fixes).overallScore = 90 := by
  refine ⟨by simp [AnalysisAgentG.analyzeIndividualTest, hapi], ?_⟩
  simp [AnalysisAgentG.analyzeIndividualTest, AnalysisAgentG.calculateQualityScore,
    hapi, hsel, hperf, hmaint, List.filter_cons, hsev]

/-- C3 witness: a concrete file whose line 3 calls a page method without
await produces exactly the one error-severity API issue at line 3 and the
score 90. -/
theorem stageG_missing_await_scoring_witness :
    (AnalysisAgentG.analyzeIndividualTest "t.spec.ts" awaitlessContent [] []).playwrightApiIssues =
        [awaitlessIssue] ∧
      (AnalysisAgentG.analyzeIndividualTest "t.spec.ts" awaitlessContent [] []).overallScore = 90 :=
  stageG_missing_await_scoring awaitlessContent "t.spec.ts" awaitlessIssue []
    (by decide) rfl rfl (by decide) (by decide) (by decide)

/-- C4: over an always-failing model with the retry ceiling 3, the client
makes exactly the calls for attempts 1, 2 and 3, sleeping 2000 ms after the
first failure and 4000 ms after the second (2^attempt seconds, none after
the last attempt), and then raises the typed failure carrying the last
underlying error. -/
theorem retry_backoff_trace (model : Nat → Except String String) (err : Nat → String)
    (h : ∀ i, model i = .error (err i)) :
    LangChainClient.generateWithRetry model 3 =
      ([.call 1, .sleep 2000, .call 2, .sleep 4000, .call 3],
        .error ("LLM failed after 3 attempts. Last error: " ++ err 3)) := by
  simp only [LangChainClient.generateWithRetry, LangChainClient.generateWithRetryGo, h,
    List.range']
  norm_num
  congr 1

/-- C4 witness: the trace at a concrete constantly-failing model. -/
theorem retry_backoff_trace_witness :
    LangChainClient.generateWithRetry (fun _ => Except.error "boom") 3 =
      ([.call 1, .sleep 2000, .call 2, .sleep 4000, .call 3],
        Except.error ("LLM failed after 3 attempts. Last error: " ++ "boom")) :=
  retry_backoff_trace (fun _ => Except.error "boom") (fun _ => "boom") (fun _ => rfl)

/-- C5: contrary to the claim, the keyword signin does not match the
knowledge-base entry with category forms and name sign_in: the retriever
compares raw strings and strips no punctuation, and none of the four
containment tests holds between signin and sign_in / forms. -/
theorem signin_no_match_counterexample :
    RAGRetriever.findRelevantSelectors kbSignIn ["signin"] = [] ∧
      RAGRetriever.entryMatches "signin" "sign_in" "forms" = false :=
  ⟨by decide, by decide⟩

/-- C5 (amended): neither signin nor xyz matches the entry (forms, sign_in);
in general a single-entry knowledge base matches a keyword exactly when the
name contains the lower-cased keyword, the category contains it, it contains
the name, or it contains the category. -/
theorem retrieval_matching_rule :
    RAGRetriever.findRelevantSelectors kbSignIn ["signin"] = [] ∧
      RAGRetriever.findRelevantSelectors kbSignIn ["xyz"] = [] ∧
      (∀ k cat name sel : String,
        RAGRetriever.findRelevantSelectors
            { selectors := [(cat, [(name, sel)])], endpoints := [] } [k] =
          if jsIncludes name (jsToLower k) || jsIncludes cat (jsToLower k) ||
              jsIncludes (jsToLower k) name || jsIncludes (jsToLower k) cat then
            [(cat ++ "." ++ name, sel)]
          else []) :=
  ⟨by decide, by decide, fun k cat name sel => rfl⟩

/-- C6: the score always lies in 0..100; adding a syntax, API-usage,
performance or maintainability issue, or a locator-quality issue that is not
a positive signal, never increases the score; adding a positive
locator-quality signal (good_selector, severity other than warning, as the
detector emits them) never decreases it. -/
theorem qualityScore_monotonicity (a : AnalysisAgentG.TestAnalysisResult) :
    (0 ≤ AnalysisAgentG.calculateQualityScore a ∧
        AnalysisAgentG.calculateQualityScore a ≤ 100) ∧
      (∀ e : AnalysisAgentG.SyntaxError,
        AnalysisAgentG.calculateQualityScore { a with syntaxErrors := e :: a.syntaxErrors } ≤
          AnalysisAgentG.calculateQualityScore a) ∧
      (∀ e : AnalysisAgentG.PlaywrightAPIIssue,
        AnalysisAgentG.calculateQualityScore
            { a with playwrightApiIssues := e :: a.playwrightApiIssues } ≤
          AnalysisAgentG.calculateQualityScore a) ∧
      (∀ e : AnalysisAgentG.SelectorQualityIssue,
        e.type ≠ AnalysisAgentG.SelectorIssueType.good_selector →
          AnalysisAgentG.calculateQualityScore
              { a with selectorQualityIssues := e :: a.selectorQualityIssues } ≤
            AnalysisAgentG.calculateQualityScore a) ∧
      (∀ e : AnalysisAgentG.PerformanceIssue,
        AnalysisAgentG.calculateQualityScore
            { a with performanceIssues := e :: a.performanceIssues } ≤
          AnalysisAgentG.calculateQualityScore a) ∧
      (∀ e : AnalysisAgentG.MaintainabilityIssue,
        AnalysisAgentG.calculateQualityScore
            { a with maintainabilityIssues := e :: a.maintainabilityIssues } ≤
          AnalysisAgentG.calculateQualityScore a) ∧
      (∀ e : AnalysisAgentG.SelectorQualityIssue,
        e.type = AnalysisAgentG.SelectorIssueType.good_selector →
          e.severity ≠ AnalysisAgentG.Severity.warning →
            AnalysisAgentG.calculateQualityScore a ≤
              AnalysisAgentG.calculateQualityScore
                { a with selectorQualityIssues := e :: a.selectorQualityIssues }) :=
  ⟨score_bounds a, fun e => mono_syntax a e, fun e => mono_api a e,
    fun e h => mono_sel a e h, fun e => mono_perf a e, fun e => mono_maint a e,
    fun e ht hs => mono_good a e ht hs⟩

/-- C6 witness: the monotonicity bounds instantiated on an empty aggregate
with a concrete brittle-selector issue, performance issue and good-selector
signal. -/
theorem qualityScore_monotonicity_witness :
    (0 ≤ AnalysisAgentG.calculateQualityScore emptyAnalysis ∧
        AnalysisAgentG.calculateQualityScore emptyAnalysis ≤ 100) ∧
      AnalysisAgentG.calculateQualityScore
          { emptyAnalysis with
            selectorQualityIssues := brittleSelectorEx :: emptyAnalysis.selectorQualityIssues } ≤
        AnalysisAgentG.calculateQualityScore emptyAnalysis ∧
      AnalysisAgentG.calculateQualityScore
          { emptyAnalysis with
            performanceIssues := perfIssueEx :: emptyAnalysis.performanceIssues } ≤
        AnalysisAgentG.calculateQualityScore emptyAnalysis ∧
      AnalysisAgentG.calculateQualityScore emptyAnalysis ≤
        AnalysisAgentG.calculateQualityScore
          { emptyAnalysis with
            selectorQualityIssues := goodSelectorEx :: emptyAnalysis.selectorQualityIssues } := by
  have h := qualityScore_monotonicity emptyAnalysis
  exact ⟨h.1, h.2.2.2.1 brittleSelectorEx (by decide),
    h.2.2.2.2.1 perfIssueEx, h.2.2.2.2.2.2 goodSelectorEx (by decide) (by decide)⟩

/-- C7: contrary to the claim, once a second navigation call exists the
multiple-navigations issue is flagged on every line of the file, not only on
navigation lines: a three-line file with two navigation lines receives three
issues. -/
theorem multiNav_per_file_counterexample :
    ((AnalysisAgentG.analyzePerformanceIssues twoNavContent).filter
        (fun x => x.type == AnalysisAgentG.PerformanceIssueType.multiple_navigations)).length = 3 ∧
      ((jsLines twoNavContent).filter (fun l => jsIncludes l "goto(")).length = 2 :=
  ⟨by decide, by decide⟩

/-- C7 (amended): when the whole file contains more than one navigation
call, one multiple-navigations issue is produced per line of the file
(whether or not the line navigates); with at most one navigation call, no
such issue is produced. -/
theorem multiNav_once_per_line (content : String) :
    ((AnalysisAgentG.analyzePerformanceIssues content).filter
        (fun x => x.type == AnalysisAgentG.PerformanceIssueType.multiple_navigations)).length =
      if (jsSplit content "goto(").length - 1 > 1 then (jsLines content).length else 0 := by
  unfold AnalysisAgentG.analyzePerformanceIssues
  rw [flatMap_multiNav]
  simp [List.enum_length]

/-- C8: Stage A's per-scenario validation: when every required field
(title, kind, description, steps, expectedOutcome) is truthy, it succeeds
and coerces an invalid kind to positive, keeps a valid kind, wraps a
non-array steps value into a singleton sequence, keeps an array steps value,
and defaults the device to mobile exactly when the coerced kind is
cross-device (else desktop); when required fields are missing it raises a
parse failure naming the missing fields. -/
theorem stageA_validation_coercions (r : LangChainAgentA.RawScenario) (i : Nat) :
    (LangChainAgentA.missingFields r ≠ [] →
      LangChainAgentA.validateScenario i r =
        .error ("Scenario " ++ toString i ++ " missing fields: " ++
          String.intercalate ", " (LangChainAgentA.missingFields r))) ∧
    (LangChainAgentA.missingFields r = [] →
      ∃ t, LangChainAgentA.validateScenario i r = .ok t ∧
        ((["positive", "negative", "edge", "cross-device"]).contains (r.type.getD "") = false →
          t.type = "positive") ∧
        ((["positive", "negative", "edge", "cross-device"]).contains (r.type.getD "") = true →
          t.type = r.type.getD "") ∧
        (∀ s, r.steps = some (.str s) → t.steps = [s]) ∧
        (∀ l, r.steps = some (.arr l) → t.steps = l) ∧
        (LangChainAgentA.strTruthy r.device = false →
          t.device = if t.type == "cross-device" then "mobile" else "desktop")) := by
  constructor
  · intro h
    simp only [LangChainAgentA.validateScenario]
    rw [if_pos (List.length_pos.mpr h)]
  · intro h
    have htr := missing_nil h
    simp only [LangChainAgentA.validateScenario]
    rw [if_neg (by simp [h])]
    refine ⟨_, rfl, ?_, ?_, ?_, ?_, ?_⟩
    · intro hk
      have hx : (if (["positive", "negative", "edge", "cross-device"]).contains
          (r.type.getD "") = true then r.type.getD "" else "positive") = "positive" := by
        rw [hk]; simp
      exact hx
    · intro hk
      have hx : (if (["positive", "negative", "edge", "cross-device"]).contains
          (r.type.getD "") = true then r.type.getD "" else "positive") = r.type.getD "" := by
        rw [hk]; simp
      exact hx
    · intro s hs
      have hst := htr.2.2.2.1
      rw [hs] at hst
      simp only [LangChainAgentA.stepsTruthy] at hst
      simp [hs, List.filter_cons, hst]
    · intro l hl; simp [hl]
    · intro hd; simp [hd]

/-- C8 witness: a complete scenario with kind bogus, a bare string in steps
and no device validates to kind positive, a singleton step list and device
desktop. -/
theorem stageA_validation_coercions_witness :
    LangChainAgentA.missingFields rawCoerced = [] ∧
      ∃ t, LangChainAgentA.validateScenario 0 rawCoerced = .ok t ∧
        t.type = "positive" ∧ t.steps = ["only step"] ∧ t.device = "desktop" := by
  refine ⟨rfl, ?_⟩
  obtain ⟨t, hok, hinvalid, _, hstr, _, hdev⟩ :=
    (stageA_validation_coercions rawCoerced 0).2 rfl
  have hty := hinvalid (by decide)
  have hsteps := hstr "only step" rfl
  have hd := hdev rfl
  rw [hty] at hd
  refine ⟨t, hok, hty, hsteps, ?_⟩
  simpa using hd

/-- C9: contrary to the claim, two scenarios with distinct titles can
collide: the titles with a space and with a hyphen both sanitize to the same
filename. -/
theorem filename_collision_counterexample :
    LangChainAgentC.generateFilename (plainScenario "a b" "desktop") =
        LangChainAgentC.generateFilename (plainScenario "a-b" "desktop") ∧
      (plainScenario "a b" "desktop").title ≠ (plainScenario "a-b" "desktop").title :=
  ⟨by decide, by decide⟩

/-- C9 (amended): the filename is a pure deterministic function of title and
device alone (identical title and device give identical filenames); the
primary and fallback generation paths share the derivation; the title is
lower-cased, characters other than lower-case letters, digits, whitespace
and hyphens are removed, whitespace runs and hyphen runs collapse to single
hyphens, and the device suffix and extension are appended; distinct titles
can still collide. -/
theorem filename_derivation :
    (∀ s1 s2 : ValidatedScenario, s1.title = s2.title → s1.device = s2.device →
      LangChainAgentC.generateFilename s1 = LangChainAgentC.generateFilename s2) ∧
    (∀ (o : LangChainAgentC.COutcome) (s : ValidatedScenario),
      (LangChainAgentC.generateSingleTest o s).filename =
        LangChainAgentC.generateFilename s) ∧
    LangChainAgentC.generateFilename (plainScenario "Sign In!" "desktop") =
      "sign-in-desktop.spec.ts" := by
  refine ⟨fun s1 s2 h1 h2 => ?_, fun o s => ?_, by decide⟩
  · simp only [LangChainAgentC.generateFilename, h1, h2]
  · cases o <;> rfl

/-- C9 witness: two scenarios sharing title and device but differing in
description get the same filename. -/
theorem filename_derivation_witness :
    LangChainAgentC.generateFilename (plainScenario "Sign In" "desktop") =
      LangChainAgentC.generateFilename (plainScenarioAlt "Sign In" "desktop") :=
  filename_derivation.1 _ _ rfl rfl

/-- C10: Stage B's validation preserves the input scenario unchanged on both
the model path and the fallback path: the produced validated scenario
carries the identical title, kind, description, steps, expected outcome and
device, only adding selectors, endpoints and notes. -/
theorem stageB_preserves_scenario (kb : KnowledgeBase)
    (o : LangChainAgentB.BOutcome) (s : TestScenario) :
    (LangChainAgentB.validateScenario kb o s).title = s.title ∧
      (LangChainAgentB.validateScenario kb o s).type = s.type ∧
      (LangChainAgentB.validateScenario kb o s).description = s.description ∧
      (LangChainAgentB.validateScenario kb o s).steps = s.steps ∧
      (LangChainAgentB.validateScenario kb o s).expected_outcome = s.expected_outcome ∧
      (LangChainAgentB.validateScenario kb o s).device = s.device := by
  cases o <;> exact ⟨rfl, rfl, rfl, rfl, rfl, rfl⟩
